import Mathlib

/-!
Verification of the authentication and session-token subsystem of a
contacts-management backend (FastAPI + SQLAlchemy + python-jose + Redis).

The development shallowly embeds the code of `src/services/auth.py`,
`src/repository/users.py`, `src/repository/refresh_tokens.py`,
`src/utils/utils.py`, `src/conf/config.py` and the route handlers of
`src/api/auth.py`.  Machine time is modelled as whole seconds since the
epoch (`Nat`); JWT strings are modelled by the type `TokenStr`, whose
`signed` constructor stands for a string correctly signed with the
application secret (jose encoding is deterministic, and signature-checked
decoding inverts it, so a validly signed string is determined by its
payload); every other string is `other s`.
-/

namespace ContactsApi

/-- `UserRole` enum of `src/database/models.py`. -/
inductive UserRole where
  | user
  | admin
deriving DecidableEq

/-- A naive Python `datetime` restricted to the calendar fields that
`datetime.isoformat` prints for the values SQLAlchemy's `DateTime`
column stores (no tzinfo, no fold). -/
structure PyDateTime where
  year : Nat
  month : Nat
  day : Nat
  hour : Nat
  minute : Nat
  second : Nat
  microsecond : Nat
deriving DecidableEq

/-- The field ranges Python's `datetime` constructor enforces (day is
additionally bounded by the month length in Python; the bound 31 is all
the round-trip argument needs). -/
def PyDateTime.Valid (d : PyDateTime) : Prop :=
  1 ≤ d.year ∧ d.year ≤ 9999 ∧ 1 ≤ d.month ∧ d.month ≤ 12 ∧
  1 ≤ d.day ∧ d.day ≤ 31 ∧ d.hour ≤ 23 ∧ d.minute ≤ 59 ∧
  d.second ≤ 59 ∧ d.microsecond ≤ 999999

instance (d : PyDateTime) : Decidable d.Valid := by
  unfold PyDateTime.Valid; infer_instance

/-- The JWT claims the application ever reads or writes: `sub`,
`token_type`, `iat`, `exp` (`src/services/auth.py`, `create_token`). -/
structure Payload where
  sub : Option String
  token_type : Option String
  iat : Nat
  exp : Nat
deriving DecidableEq

/-- Model of JWT strings: `signed p` is a string correctly signed with
`settings.JWT_SECRET` and carrying payload `p`; `other s` is any string
that fails signature verification. -/
inductive TokenStr where
  | signed (p : Payload)
  | other (s : String)
deriving DecidableEq

/-- Error kinds of `jose.JWTError` that the code distinguishes only by
catching the common superclass. -/
inductive JWTErr where
  | expired
  | malformed
deriving DecidableEq

/-- `jose.jwt.decode(token, settings.JWT_SECRET, algorithms=[...])` at
time `now`: signature check, then expiry check (jose raises
`ExpiredSignatureError` iff `exp < now`). -/
def jwtDecode (t : TokenStr) (now : Nat) : Except JWTErr Payload :=
  match t with
  | .signed p => if p.exp < now then .error .expired else .ok p
  | .other _ => .error .malformed

/-- `Settings.ACCESS_TOKEN_EXPIRATION_SECONDS` default
(`src/conf/config.py` line 50). -/
def ACCESS_TOKEN_EXPIRATION_SECONDS : Nat := 3600

/-- `Settings.REFRESH_TOKEN_EXPIRATION_SECONDS` default
(`src/conf/config.py` line 51). -/
def REFRESH_TOKEN_EXPIRATION_SECONDS : Nat := 604800

/-- `datetime.timedelta(seconds=n)`, measured in seconds. -/
def timedelta_seconds (n : Nat) : Nat := n

/-- `datetime.timedelta(minutes=n)`, measured in seconds. -/
def timedelta_minutes (n : Nat) : Nat := n * 60

/-- `TokenDto` of `src/schemas.py`: token string plus issuance metadata. -/
structure TokenDto where
  token : TokenStr
  expires_at : Nat
  created_at : Nat
deriving DecidableEq

/-- `create_token(data, expires_delta, token_type)` of
`src/services/auth.py`: every call site passes `data = {"sub": ...}`, so
the payload dictionary is modelled by its optional `sub` entry;
`expires_delta` is a duration in seconds. -/
def create_token (data_sub : Option String) (expires_delta : Nat)
    (token_type : String) (now : Nat) : TokenDto :=
  let expire := now + expires_delta
  { token := .signed { sub := data_sub, token_type := some token_type,
                       iat := now, exp := expire }
    expires_at := expire
    created_at := now }

/-- Python truthiness of an `Optional[int]` duration (`if expires_delta:`
is false for both `None` and `0`). -/
def truthyDelta (o : Option Nat) : Bool :=
  match o with
  | none => false
  | some n => n != 0

/-- `create_access_token(data, expires_delta)` of `src/services/auth.py`
(returns the encoded token string). -/
def create_access_token (data_sub : Option String) (expires_delta : Option Nat)
    (now : Nat) : TokenStr :=
  if truthyDelta expires_delta then
    (create_token data_sub (expires_delta.getD 0) "access" now).token
  else
    (create_token data_sub
      (timedelta_seconds ACCESS_TOKEN_EXPIRATION_SECONDS) "access" now).token

/-- The `TokenDto` built by `create_refresh_token` /
`update_refresh_token` of `src/services/auth.py` before it is handed to
`RefreshTokenService`: note the declared-in-seconds constant is passed to
`timedelta(minutes=...)`. -/
def refresh_token_dto (data_sub : Option String) (expires_delta : Option Nat)
    (now : Nat) : TokenDto :=
  if truthyDelta expires_delta then
    create_token data_sub (expires_delta.getD 0) "refresh" now
  else
    create_token data_sub
      (timedelta_minutes REFRESH_TOKEN_EXPIRATION_SECONDS) "refresh" now

/-! ### ISO-8601 rendering and parsing of naive datetimes

`src/utils/utils.py` serializes datetime columns with
`datetime.isoformat()` and deserializes them with
`datetime.fromisoformat()`.  `isoformat` on a naive datetime prints
`YYYY-MM-DDTHH:MM:SS` followed by `.ffffff` exactly when the
microsecond field is nonzero; `fromisoformat` parses that fixed-position
format (CPython's parser accepts further variants our printer never
emits and no claim exercises). -/

/-- The character of a single decimal digit. -/
def natToDigitChar (n : Nat) : Char := Char.ofNat (48 + n)

/-- The value of a decimal digit character, `none` for non-digits. -/
def digitVal (c : Char) : Option Nat :=
  if c.isDigit then some (c.toNat - 48) else none

/-- The last `k` decimal digits of `n`, zero padded, most significant
first (the rendering of Python's `%0kd` for `n < 10 ^ k`). -/
def padDigits : Nat → Nat → List Char
  | 0, _ => []
  | k + 1, n => padDigits k (n / 10) ++ [natToDigitChar (n % 10)]

/-- Read exactly `k` decimal digits from the front of `cs`,
accumulating their value onto `acc`. -/
def readDigitsAux (acc : Nat) : Nat → List Char → Option (Nat × List Char)
  | 0, cs => some (acc, cs)
  | _ + 1, [] => none
  | k + 1, c :: cs =>
    match digitVal c with
    | some d => readDigitsAux (acc * 10 + d) k cs
    | none => none

/-- Read exactly `k` decimal digits as a number. -/
def readDigits (k : Nat) (cs : List Char) : Option (Nat × List Char) :=
  readDigitsAux 0 k cs

/-- Expect a literal character at the front of the input. -/
def expectChar (c : Char) : List Char → Option (List Char)
  | [] => none
  | x :: xs => if x = c then some xs else none

/-- `datetime.isoformat()` of a naive datetime, as a character list
(grouped to the right: each fixed-width field followed by the rest). -/
def isoChars (d : PyDateTime) : List Char :=
  padDigits 4 d.year ++ ('-' :: (padDigits 2 d.month ++ ('-' :: (padDigits 2 d.day ++
  ('T' :: (padDigits 2 d.hour ++ (':' :: (padDigits 2 d.minute ++ (':' :: (padDigits 2 d.second ++
  (if d.microsecond ≠ 0 then '.' :: padDigits 6 d.microsecond else [])))))))))))

/-- `datetime.isoformat()`. -/
def isoformat (d : PyDateTime) : String := String.mk (isoChars d)

/-- The `datetime(...)` constructor: validates the field ranges and
builds the value (day validated only up to 31 here). -/
def mkDateTime (y mo d h mi s us : Nat) : Option PyDateTime :=
  if 1 ≤ y ∧ y ≤ 9999 ∧ 1 ≤ mo ∧ mo ≤ 12 ∧ 1 ≤ d ∧ d ≤ 31 ∧
     h ≤ 23 ∧ mi ≤ 59 ∧ s ≤ 59 ∧ us ≤ 999999 then
    some ⟨y, mo, d, h, mi, s, us⟩
  else none

/-- `datetime.fromisoformat` on the formats `datetime.isoformat` emits
for naive datetimes: `YYYY-MM-DD`, `YYYY-MM-DDTHH:MM:SS` and
`YYYY-MM-DDTHH:MM:SS.ffffff`; anything else is rejected
(`ValueError`, modelled as `none`). -/
def fromIsoChars (cs : List Char) : Option PyDateTime := do
  let (y, cs) ← readDigits 4 cs
  let cs ← expectChar '-' cs
  let (mo, cs) ← readDigits 2 cs
  let cs ← expectChar '-' cs
  let (d, cs) ← readDigits 2 cs
  match cs with
  | [] => mkDateTime y mo d 0 0 0 0
  | 'T' :: cs => do
    let (h, cs) ← readDigits 2 cs
    let cs ← expectChar ':' cs
    let (mi, cs) ← readDigits 2 cs
    let cs ← expectChar ':' cs
    let (s, cs) ← readDigits 2 cs
    match cs with
    | [] => mkDateTime y mo d h mi s 0
    | '.' :: cs => do
      let (us, cs) ← readDigits 6 cs
      match cs with
      | [] => mkDateTime y mo d h mi s us
      | _ => none
    | _ => none
  | _ => none

/-- `datetime.fromisoformat`. -/
def fromisoformat (s : String) : Option PyDateTime := fromIsoChars s.data

/-! ### Data model (`src/database/models.py`) -/

/-- The `users` table row (`User` model). -/
structure User where
  id : Nat
  username : String
  email : String
  hashed_password : String
  created_at : PyDateTime
  avatar : Option String
  confirmed : Bool
  role : UserRole
deriving DecidableEq

/-- A dynamically typed Python attribute value that is either a
`datetime` or a string (what `parse_datetime_fields` leaves in the
dictionary slot). -/
inductive PyVal where
  | dt (d : PyDateTime)
  | str (s : String)
deriving DecidableEq

/-- A `User` as reconstructed by `User(**user_data)` from a cache entry:
the `created_at` attribute holds whatever Python value the dictionary
carried (a `datetime` on a successful parse, otherwise still a string). -/
structure RawUser where
  id : Nat
  username : String
  email : String
  hashed_password : String
  created_at : PyVal
  avatar : Option String
  confirmed : Bool
  role : UserRole
deriving DecidableEq

/-- The `RawUser` carried by a live ORM `User` object. -/
def User.toRaw (u : User) : RawUser :=
  { id := u.id, username := u.username, email := u.email,
    hashed_password := u.hashed_password, created_at := .dt u.created_at,
    avatar := u.avatar, confirmed := u.confirmed, role := u.role }

/-- The dictionary `to_dict` (`src/utils/utils.py`) produces for a
`User` row: each column keyed by name, datetime columns rendered by
`isoformat`.  `json.dumps` / `json.loads` round-trip such a dictionary
of strings/ints/bools/None unchanged, so the JSON step is the identity
on this representation. -/
structure UserDict where
  id : Nat
  username : String
  email : String
  hashed_password : String
  created_at : String
  avatar : Option String
  confirmed : Bool
  role : UserRole
deriving DecidableEq

/-- `to_dict(user)` (`src/utils/utils.py` lines 37-54) restricted to the
`users` columns; `created_at` is the only datetime column. -/
def to_dict (u : User) : UserDict :=
  { id := u.id, username := u.username, email := u.email,
    hashed_password := u.hashed_password,
    created_at := isoformat u.created_at,
    avatar := u.avatar, confirmed := u.confirmed, role := u.role }

/-- The dictionary after `parse_datetime_fields(data, ["created_at"])`:
the `created_at` slot becomes a `datetime` when `fromisoformat`
succeeds, else keeps its string (`src/utils/utils.py` lines 17-34). -/
structure ParsedUserDict where
  id : Nat
  username : String
  email : String
  hashed_password : String
  created_at : PyVal
  avatar : Option String
  confirmed : Bool
  role : UserRole
deriving DecidableEq

/-- `parse_datetime_fields(data, ["created_at"])`. -/
def parse_datetime_fields (d : UserDict) : ParsedUserDict :=
  { id := d.id, username := d.username, email := d.email,
    hashed_password := d.hashed_password,
    created_at :=
      match fromisoformat d.created_at with
      | some t => .dt t
      | none => .str d.created_at,
    avatar := d.avatar, confirmed := d.confirmed, role := d.role }

/-- `User(**user_data)` applied to the parsed dictionary
(`src/services/auth.py` line 249). -/
def userOfParsedDict (d : ParsedUserDict) : RawUser :=
  { id := d.id, username := d.username, email := d.email,
    hashed_password := d.hashed_password, created_at := d.created_at,
    avatar := d.avatar, confirmed := d.confirmed, role := d.role }

/-- The `refresh_tokens` table row (`RefreshToken` model).  Timestamps
are epoch seconds. -/
structure RefreshTokenRec where
  id : Nat
  token : TokenStr
  created_at : Nat
  expires_at : Nat
  user_id : Nat
deriving DecidableEq

/-- Database state: the two tables the auth subsystem touches, plus the
autoincrement counter of `refresh_tokens.id`. -/
structure AuthDB where
  users : List User
  tokens : List RefreshTokenRec
  next_id : Nat
deriving DecidableEq

/-- Schema invariants the models declare (`unique=True` on
`users.username`, `users.email`, `refresh_tokens.token`, and primary
keys). -/
def AuthDB.wf (db : AuthDB) : Prop :=
  (db.users.map User.id).Nodup ∧
  (db.users.map User.username).Nodup ∧
  (db.users.map User.email).Nodup ∧
  (db.tokens.map RefreshTokenRec.id).Nodup ∧
  (db.tokens.map RefreshTokenRec.token).Nodup

instance (db : AuthDB) : Decidable db.wf := by
  unfold AuthDB.wf; infer_instance

/-! ### Repositories (`src/repository/users.py`,
`src/repository/refresh_tokens.py`) -/

/-- `sqlalchemy.orm` errors the repositories can raise. -/
inductive DbError where
  | multipleResultsFound
deriving DecidableEq

/-- `Result.scalar_one_or_none()`: none for no row, the row when
unique, `MultipleResultsFound` otherwise. -/
def scalarOneOrNone {α : Type} : List α → Except DbError (Option α)
  | [] => .ok none
  | [a] => .ok (some a)
  | _ => .error .multipleResultsFound

/-- `UserRepository.get_user_by_username`. -/
def get_user_by_username (db : AuthDB) (username : String) :
    Except DbError (Option User) :=
  scalarOneOrNone (db.users.filter (fun u => decide (u.username = username)))

/-- `UserRepository.get_user_by_email`. -/
def get_user_by_email (db : AuthDB) (email : String) :
    Except DbError (Option User) :=
  scalarOneOrNone (db.users.filter (fun u => decide (u.email = email)))

/-- `UserRepository.get_user_by_username_and_by_refresh_token`:
users whose username matches and who own a stored refresh-token row
whose token string equals the presented one
(`User.refresh_tokens.any(token=token)`). -/
def get_user_by_username_and_by_refresh_token (db : AuthDB)
    (username : String) (token : TokenStr) : Except DbError (Option User) :=
  scalarOneOrNone (db.users.filter (fun u =>
    decide (u.username = username ∧
      ∃ r ∈ db.tokens, r.user_id = u.id ∧ r.token = token)))

/-- `RefreshTokenRepository.create_refresh_token`: insert, letting the
database assign the autoincrement id, and return the row as stored. -/
def repo_create_refresh_token (db : AuthDB) (r : RefreshTokenRec) :
    RefreshTokenRec × AuthDB :=
  let row := { r with id := db.next_id }
  (row, { db with tokens := db.tokens ++ [row], next_id := db.next_id + 1 })

/-- `RefreshTokenRepository.update_refresh_token` (lines 45-69): select
the row with `token = old_refresh_token, user_id = user_id`; if present,
overwrite its `token`, `expires_at`, `created_at` in place and return
it; else return `None` without touching the store. -/
def repo_update_refresh_token (db : AuthDB) (old_refresh_token : TokenStr)
    (refresh_token : RefreshTokenRec) (user_id : Nat) :
    Except DbError (Option RefreshTokenRec × AuthDB) :=
  match scalarOneOrNone (db.tokens.filter (fun t =>
      decide (t.token = old_refresh_token ∧ t.user_id = user_id))) with
  | .error e => .error e
  | .ok none => .ok (none, db)
  | .ok (some existing_token) =>
    let upd := { existing_token with
      token := refresh_token.token,
      expires_at := refresh_token.expires_at,
      created_at := refresh_token.created_at }
    .ok (some upd,
      { db with tokens := db.tokens.map (fun t =>
          if t.id = existing_token.id then upd else t) })

/-- `UserRepository.confirmed_email` (lines 119-131): re-fetch the user
by email and set `confirmed = True`; a missing user raises
`AttributeError` on `None.confirmed`. -/
inductive PyError where
  | keyError
  | attributeError
deriving DecidableEq

/-- Outcome of a request-handling computation: a value, a raised
`HTTPException` (status code, detail), an ORM error, or an uncaught
Python exception. -/
inductive ApiResult (α : Type) where
  | ok (a : α)
  | httpError (status_code : Nat) (detail : String)
  | dbError (e : DbError)
  | pyError (e : PyError)
deriving DecidableEq

/-- `UserRepository.confirmed_email`. -/
def repo_confirmed_email (db : AuthDB) (email : String) :
    ApiResult Unit × AuthDB :=
  match get_user_by_email db email with
  | .error e => (.dbError e, db)
  | .ok none => (.pyError .attributeError, db)
  | .ok (some u) =>
    (.ok (),
     { db with users := db.users.map (fun v =>
         if v.id = u.id then { v with confirmed := true } else v) })

/-! ### Services (`src/services/auth.py`, `src/services/refresh_tokens.py`) -/

/-- `RefreshTokenService.map_refresh_token`: build the ORM row from the
DTO (id not yet assigned; the insert assigns it). -/
def map_refresh_token (dto : TokenDto) (user_id : Nat) : RefreshTokenRec :=
  { id := 0, token := dto.token, expires_at := dto.expires_at,
    created_at := dto.created_at, user_id := user_id }

/-- `create_refresh_token(data, user_id, db, expires_delta)` of
`src/services/auth.py`: issue the signed token (default ttl
`timedelta(minutes=REFRESH_TOKEN_EXPIRATION_SECONDS)`), persist it via
`RefreshTokenService.create_refresh_token`, and return the stored row. -/
def create_refresh_token (data_sub : Option String) (user_id : Nat)
    (db : AuthDB) (expires_delta : Option Nat) (now : Nat) :
    RefreshTokenRec × AuthDB :=
  let dto := refresh_token_dto data_sub expires_delta now
  repo_create_refresh_token db (map_refresh_token dto user_id)

/-- `update_refresh_token(data, old_refresh_token, user_id, db,
expires_delta)` of `src/services/auth.py`: issue a fresh signed refresh
token and rotate the stored row that matches the old string via
`RefreshTokenService.update_refresh_token`. -/
def update_refresh_token (data_sub : Option String)
    (old_refresh_token : TokenStr) (user_id : Nat) (db : AuthDB)
    (expires_delta : Option Nat) (now : Nat) :
    Except DbError (Option RefreshTokenRec × AuthDB) :=
  let dto := refresh_token_dto data_sub expires_delta now
  repo_update_refresh_token db old_refresh_token
    (map_refresh_token dto user_id) user_id

/-- `verify_refresh_token(refresh_token, db)` (`src/services/auth.py`
lines 315-340): decode; missing `sub` or `token_type != "refresh"` or
any `JWTError` yields `None`; else look the user up by
(username, exact token string). -/
def verify_refresh_token (refresh_token : TokenStr) (db : AuthDB)
    (now : Nat) : Except DbError (Option User) :=
  match jwtDecode refresh_token now with
  | .error _ => .ok none
  | .ok p =>
    match p.sub with
    | none => .ok none
    | some username =>
      if p.token_type ≠ some "refresh" then .ok none
      else get_user_by_username_and_by_refresh_token db username refresh_token

/-- `get_email_from_token(token)` (`src/services/auth.py` lines
289-312): only `JWTError` is caught (mapped to the 422 response);
`payload["sub"]` on a payload without `sub` raises `KeyError`, which
escapes. -/
def get_email_from_token (token : TokenStr) (now : Nat) : ApiResult String :=
  match jwtDecode token now with
  | .error _ => .httpError 422 "Not valid token"
  | .ok p =>
    match p.sub with
    | some email => .ok email
    | none => .pyError .keyError

/-- Key of an identity-cache entry: `userKey t` models the Redis key
string `"user:" + token` (string prefixing is injective, as is this
constructor). -/
inductive CacheKey where
  | userKey (t : TokenStr)
deriving DecidableEq

/-- One Redis entry: key, JSON value (a serialized user dictionary) and
the TTL in seconds it was set with. -/
structure CacheEntry where
  key : CacheKey
  value : UserDict
  ttl : Nat
deriving DecidableEq

/-- The identity cache (live entries of the Redis store). -/
def Cache : Type := List CacheEntry

instance : DecidableEq Cache := by
  unfold Cache; infer_instance

/-- `cache.get(key)`. -/
def cacheGet (c : Cache) (k : CacheKey) : Option UserDict :=
  (List.find? (fun e => decide (e.key = k)) c).map CacheEntry.value

/-- `cache.set(key, value, ex=ttl)`: the new entry shadows any previous
one under the same key. -/
def cacheSet (c : Cache) (k : CacheKey) (v : UserDict) (ttl : Nat) : Cache :=
  List.cons { key := k, value := v, ttl := ttl } c

/-- Instrumentation: how many `jwt.decode` calls and user-repository
lookups a resolution performed. -/
structure ResolveStats where
  decodes : Nat
  lookups : Nat
deriving DecidableEq

/-- `get_current_user(token, db, cache)` (`src/services/auth.py` lines
221-269), instrumented with `ResolveStats`.  On a cache hit the user is
rebuilt from the JSON dictionary (`db.merge` only reattaches the object
to the session, leaving its attribute values unchanged, so it is the
identity here); on a miss the token is decoded (requiring a `sub` claim
and `token_type == "access"`), the user fetched by username, and the
serialized user written back under `"user:" + token` with TTL 3600. -/
def get_current_user (token : TokenStr) (db : AuthDB) (cache : Cache)
    (now : Nat) : ApiResult RawUser × Cache × ResolveStats :=
  match cacheGet cache (.userKey token) with
  | some cached =>
    (.ok (userOfParsedDict (parse_datetime_fields cached)), cache, ⟨0, 0⟩)
  | none =>
    match jwtDecode token now with
    | .error _ => (.httpError 401 "Could not validate credentials", cache, ⟨1, 0⟩)
    | .ok p =>
      match p.sub with
      | none => (.httpError 401 "Could not validate credentials", cache, ⟨1, 0⟩)
      | some username =>
        if p.token_type ≠ some "access" then
          (.httpError 401 "Could not validate credentials", cache, ⟨1, 0⟩)
        else
          match get_user_by_username db username with
          | .error e => (.dbError e, cache, ⟨1, 1⟩)
          | .ok none =>
            (.httpError 401 "Could not validate credentials", cache, ⟨1, 1⟩)
          | .ok (some user) =>
            (.ok user.toRaw,
             cacheSet cache (.userKey token) (to_dict user) 3600, ⟨1, 1⟩)

/-! ### Route handlers (`src/api/auth.py`) -/

/-- The `Token` response body. -/
structure TokenResponse where
  access_token : TokenStr
  refresh_token : TokenStr
  token_type : String
deriving DecidableEq

/-- `POST /auth/login` (`login_user`, lines 106-146).  `bcrypt`
verification is an external collaborator, passed in as
`verify_password`. -/
def login_user (verify_password : String → String → Bool)
    (username password : String) (db : AuthDB) (now : Nat) :
    ApiResult TokenResponse × AuthDB :=
  match get_user_by_username db username with
  | .error e => (.dbError e, db)
  | .ok none => (.httpError 401 "Not valid password or username", db)
  | .ok (some user) =>
    if ¬ verify_password password user.hashed_password then
      (.httpError 401 "Not valid password or username", db)
    else if ¬ user.confirmed then
      (.httpError 401 "Email must be confirmed", db)
    else
      let access_token := create_access_token (some user.username) none now
      let res := create_refresh_token (some user.username) user.id db none now
      (.ok { access_token := access_token, refresh_token := res.1.token,
             token_type := "bearer" }, res.2)

/-- `GET /auth/confirmed_email/{token}` (`confirmed_email`, lines
149-174). -/
def confirmed_email_route (token : TokenStr) (db : AuthDB) (now : Nat) :
    ApiResult String × AuthDB :=
  match get_email_from_token token now with
  | .ok email =>
    match get_user_by_email db email with
    | .error e => (.dbError e, db)
    | .ok none => (.httpError 400 "Verification error", db)
    | .ok (some user) =>
      if user.confirmed then (.ok "Your email is already confirmed", db)
      else
        match repo_confirmed_email db email with
        | (.ok _, db2) => (.ok "Email confirmed successfully", db2)
        | (.httpError c d, db2) => (.httpError c d, db2)
        | (.dbError e, db2) => (.dbError e, db2)
        | (.pyError e, db2) => (.pyError e, db2)
  | .httpError c d => (.httpError c d, db)
  | .dbError e => (.dbError e, db)
  | .pyError e => (.pyError e, db)

/-- `POST /auth/refresh-token` (`new_token`, lines 214-248): verify the
presented refresh token, mint a new access token, rotate the stored
refresh record, and echo the *request's* refresh token string in the
response. -/
def new_token (request_refresh_token : TokenStr) (db : AuthDB) (now : Nat) :
    ApiResult TokenResponse × AuthDB :=
  match verify_refresh_token request_refresh_token db now with
  | .error e => (.dbError e, db)
  | .ok none => (.httpError 401 "Invalid or expired refresh token", db)
  | .ok (some user) =>
    let new_access_token := create_access_token (some user.username) none now
    match update_refresh_token (some user.username) request_refresh_token
        user.id db none now with
    | .error e => (.dbError e, db)
    | .ok (_, db2) =>
      (.ok { access_token := new_access_token,
             refresh_token := request_refresh_token,
             token_type := "bearer" }, db2)

/-! ### Helper lemmas -/

theorem digitVal_natToDigitChar (n : Nat) (h : n < 10) :
    digitVal (natToDigitChar n) = some n := by
  interval_cases n <;> decide

theorem readDigitsAux_padDigits (k : Nat) :
    ∀ (j acc n : Nat) (rest : List Char),
      readDigitsAux acc (k + j) (padDigits k n ++ rest) =
        readDigitsAux (acc * 10 ^ k + n % 10 ^ k) j rest := by
  induction k with
  | zero =>
    intro j acc n rest
    simp [padDigits, readDigitsAux, Nat.mod_one]
  | succ k ih =>
    intro j acc n rest
    have hshape : padDigits (k + 1) n ++ rest =
        padDigits k (n / 10) ++ (natToDigitChar (n % 10) :: rest) := by
      simp [padDigits]
    have hcount : k + 1 + j = k + (j + 1) := by omega
    rw [hshape, hcount, ih (j + 1) acc (n / 10) _]
    have hstep :
        readDigitsAux (acc * 10 ^ k + n / 10 % 10 ^ k) (j + 1)
            (natToDigitChar (n % 10) :: rest) =
          readDigitsAux ((acc * 10 ^ k + n / 10 % 10 ^ k) * 10 + n % 10)
            j rest := by
      simp [readDigitsAux, digitVal_natToDigitChar (n % 10) (Nat.mod_lt n (by omega))]
    rw [hstep]
    congr 1
    have hmod : n % 10 ^ (k + 1) = n % 10 + 10 * (n / 10 % 10 ^ k) := by
      rw [pow_succ']
      exact Nat.mod_mul
    rw [hmod, pow_succ]
    ring

theorem readDigits_padDigits (k n : Nat) (h : n < 10 ^ k) (rest : List Char) :
    readDigits k (padDigits k n ++ rest) = some (n, rest) := by
  have := readDigitsAux_padDigits k 0 0 n rest
  rw [Nat.add_zero] at this
  rw [readDigits, this, Nat.zero_mul, Nat.zero_add, Nat.mod_eq_of_lt h]
  rfl

theorem expectChar_cons (c : Char) (xs : List Char) :
    expectChar c (c :: xs) = some xs := by
  simp [expectChar]

theorem readDigits_padDigits_nil (k n : Nat) (h : n < 10 ^ k) :
    readDigits k (padDigits k n) = some (n, []) := by
  have h2 := readDigits_padDigits k n h []
  simpa using h2

set_option maxHeartbeats 2000000 in
theorem fromIsoChars_isoChars (d : PyDateTime) (hv : d.Valid) :
    fromIsoChars (isoChars d) = some d := by
  obtain ⟨y, mo, dy, hr, mi, sec, us⟩ := d
  obtain ⟨h1, h2, h3, h4, h5, h6, h7, h8, h9, h10⟩ := hv
  dsimp only at h1 h2 h3 h4 h5 h6 h7 h8 h9 h10
  unfold isoChars fromIsoChars
  dsimp only
  rw [readDigits_padDigits 4 y (by omega)]
  simp only [Option.bind_eq_bind, Option.some_bind]
  rw [expectChar_cons]
  simp only [Option.some_bind]
  rw [readDigits_padDigits 2 mo (by omega)]
  simp only [Option.some_bind]
  rw [expectChar_cons]
  simp only [Option.some_bind]
  rw [readDigits_padDigits 2 dy (by omega)]
  simp only [Option.some_bind]
  rw [readDigits_padDigits 2 hr (by omega)]
  simp only [Option.some_bind]
  rw [expectChar_cons]
  simp only [Option.some_bind]
  rw [readDigits_padDigits 2 mi (by omega)]
  simp only [Option.some_bind]
  rw [expectChar_cons]
  simp only [Option.some_bind]
  rw [readDigits_padDigits 2 sec (by omega)]
  simp only [Option.some_bind]
  by_cases hus : us = 0
  · subst hus
    simp only [ne_eq, not_true_eq_false, if_false, List.append_nil]
    show mkDateTime y mo dy hr mi sec 0 = some ⟨y, mo, dy, hr, mi, sec, 0⟩
    unfold mkDateTime
    rw [if_pos ⟨h1, h2, h3, h4, h5, h6, h7, h8, h9, h10⟩]
  · simp only [ne_eq, hus, not_false_eq_true, if_true]
    show (do
      let x ← readDigits 6 (padDigits 6 us)
      match x.2 with
      | [] => mkDateTime y mo dy hr mi sec x.1
      | _ => none) = some ⟨y, mo, dy, hr, mi, sec, us⟩
    rw [readDigits_padDigits_nil 6 us (by omega)]
    show mkDateTime y mo dy hr mi sec us = some ⟨y, mo, dy, hr, mi, sec, us⟩
    unfold mkDateTime
    rw [if_pos ⟨h1, h2, h3, h4, h5, h6, h7, h8, h9, h10⟩]

/-- A duplicate-free list whose only element satisfying `p` is `u`
filters to `[u]`. -/
theorem filter_eq_singleton {α : Type} {l : List α} {p : α → Bool} {u : α}
    (hnd : l.Nodup) (hu : u ∈ l) (hpu : p u = true)
    (huniq : ∀ v ∈ l, p v = true → v = u) : l.filter p = [u] := by
  have hmem : u ∈ l.filter p := List.mem_filter.mpr ⟨hu, hpu⟩
  have hall : ∀ v ∈ l.filter p, v = u := by
    intro v hv
    have hv2 := List.mem_filter.mp hv
    exact huniq v hv2.1 hv2.2
  have hsub : (l.filter p).Nodup := hnd.filter p
  rcases hfp : l.filter p with _ | ⟨a, _ | ⟨b, rest⟩⟩
  · rw [hfp] at hmem; simp at hmem
  · rw [hfp] at hall
    have := hall a (by simp)
    simp [this]
  · exfalso
    rw [hfp] at hall hsub
    have ha := hall a (by simp)
    have hb := hall b (by simp)
    rw [ha, hb] at hsub
    simp at hsub

/-- `get_user_by_username` finds exactly the member with that username
when usernames are unique. -/
theorem get_user_by_username_found {db : AuthDB} {u : User} (hwf : db.wf)
    (hu : u ∈ db.users) : get_user_by_username db u.username = .ok (some u) := by
  have hnd : db.users.Nodup := List.Nodup.of_map _ hwf.2.1
  have hfil : db.users.filter (fun v => decide (v.username = u.username)) = [u] := by
    apply filter_eq_singleton hnd hu (by simp)
    intro v hv hpv
    simp only [decide_eq_true_eq] at hpv
    exact List.inj_on_of_nodup_map hwf.2.1 hv hu hpv
  rw [get_user_by_username, hfil]; rfl

/-- `get_user_by_email` finds exactly the member with that email when
emails are unique. -/
theorem get_user_by_email_found {db : AuthDB} {u : User} (hwf : db.wf)
    (hu : u ∈ db.users) : get_user_by_email db u.email = .ok (some u) := by
  have hnd : db.users.Nodup := List.Nodup.of_map _ hwf.2.1
  have hfil : db.users.filter (fun v => decide (v.email = u.email)) = [u] := by
    apply filter_eq_singleton hnd hu (by simp)
    intro v hv hpv
    simp only [decide_eq_true_eq] at hpv
    exact List.inj_on_of_nodup_map hwf.2.2.1 hv hu hpv
  rw [get_user_by_email, hfil]; rfl

/-- `get_user_by_email` is none when no stored user carries the email. -/
theorem get_user_by_email_none {db : AuthDB} {email : String}
    (h : ∀ u ∈ db.users, u.email ≠ email) :
    get_user_by_email db email = .ok none := by
  have hfil : db.users.filter (fun v => decide (v.email = email)) = [] := by
    rw [List.filter_eq_nil_iff]
    intro v hv
    simp only [decide_eq_true_eq]
    exact h v hv
  rw [get_user_by_email, hfil]; rfl

/-- The joined username/refresh-token lookup finds exactly the owning
user when usernames are unique. -/
theorem get_user_by_username_and_token_found {db : AuthDB} {u : User}
    {tok : TokenStr} (hwf : db.wf) (hu : u ∈ db.users)
    (hr : ∃ r ∈ db.tokens, r.user_id = u.id ∧ r.token = tok) :
    get_user_by_username_and_by_refresh_token db u.username tok = .ok (some u) := by
  have hnd : db.users.Nodup := List.Nodup.of_map _ hwf.2.1
  have hfil : db.users.filter (fun v =>
      decide (v.username = u.username ∧
        ∃ r ∈ db.tokens, r.user_id = v.id ∧ r.token = tok)) = [u] := by
    apply filter_eq_singleton hnd hu
    · exact decide_eq_true ⟨rfl, hr⟩
    · intro v hv hpv
      simp only [decide_eq_true_eq] at hpv
      exact List.inj_on_of_nodup_map hwf.2.1 hv hu hpv.1
  rw [get_user_by_username_and_by_refresh_token, hfil]; rfl

/-- The joined lookup is none when no user matches both filters. -/
theorem get_user_by_username_and_token_none {db : AuthDB} {username : String}
    {tok : TokenStr}
    (h : ¬ ∃ u ∈ db.users, u.username = username ∧
        ∃ r ∈ db.tokens, r.user_id = u.id ∧ r.token = tok) :
    get_user_by_username_and_by_refresh_token db username tok = .ok none := by
  have hfil : db.users.filter (fun v =>
      decide (v.username = username ∧
        ∃ r ∈ db.tokens, r.user_id = v.id ∧ r.token = tok)) = [] := by
    rw [List.filter_eq_nil_iff]
    intro v hv
    simp only [decide_eq_true_eq]
    intro hc
    exact h ⟨v, hv, hc⟩
  rw [get_user_by_username_and_by_refresh_token, hfil]; rfl

/-- The refresh-token row filter of the rotate operation finds exactly
the matching row when token strings are unique. -/
theorem tokens_filter_eq_singleton {db : AuthDB} {row : RefreshTokenRec}
    {old : TokenStr} {uid : Nat} (hwf : db.wf) (hrow : row ∈ db.tokens)
    (htok : row.token = old) (huid : row.user_id = uid) :
    db.tokens.filter (fun t => decide (t.token = old ∧ t.user_id = uid)) = [row] := by
  have hnd : db.tokens.Nodup := List.Nodup.of_map _ hwf.2.2.2.2
  apply filter_eq_singleton hnd hrow
  · simp only [decide_eq_true_eq]
    exact ⟨htok, huid⟩
  · intro v hv hpv
    simp only [decide_eq_true_eq] at hpv
    exact List.inj_on_of_nodup_map hwf.2.2.2.2 hv hrow (hpv.1.trans htok.symm)

/-! ### Claims -/

/-- C2: with no explicit expiry, an access token expires at issuance
time plus `ACCESS_TOKEN_EXPIRATION_SECONDS` seconds (default 3600),
while a refresh token expires at issuance time plus
`REFRESH_TOKEN_EXPIRATION_SECONDS` *minutes* (default 604800 minutes):
the `_SECONDS` constant is fed to `timedelta(seconds=...)` on the access
path and to `timedelta(minutes=...)` on the refresh path, so the default
refresh lifetime is 60 times the declared 604800 seconds. -/
theorem token_default_expirations (data_sub : Option String) (now : Nat) :
    create_access_token data_sub none now =
      .signed { sub := data_sub, token_type := some "access", iat := now,
                exp := now + ACCESS_TOKEN_EXPIRATION_SECONDS } ∧
    (refresh_token_dto data_sub none now).expires_at =
      now + REFRESH_TOKEN_EXPIRATION_SECONDS * 60 ∧
    (refresh_token_dto data_sub none now).token =
      .signed { sub := data_sub, token_type := some "refresh", iat := now,
                exp := now + REFRESH_TOKEN_EXPIRATION_SECONDS * 60 } ∧
    ACCESS_TOKEN_EXPIRATION_SECONDS = 3600 ∧
    REFRESH_TOKEN_EXPIRATION_SECONDS = 604800 ∧
    timedelta_minutes REFRESH_TOKEN_EXPIRATION_SECONDS = 60 * 604800 := by
  exact ⟨rfl, rfl, rfl, rfl, rfl, rfl⟩

/-- C10: `get_email_from_token` answers 422 "Not valid token" exactly
when `jwt.decode` raises a `JWTError`; a validly signed, unexpired token
whose payload lacks `sub` instead raises an uncaught `KeyError`
(`payload["sub"]`), and one carrying `sub` returns it. -/
theorem get_email_from_token_spec (t : TokenStr) (now : Nat) :
    (get_email_from_token t now = .httpError 422 "Not valid token" ↔
      ∃ e, jwtDecode t now = .error e) ∧
    (∀ p, t = .signed p → ¬ p.exp < now → p.sub = none →
      get_email_from_token t now = .pyError .keyError) ∧
    (∀ p email, t = .signed p → ¬ p.exp < now → p.sub = some email →
      get_email_from_token t now = .ok email) := by
  refine ⟨⟨?_, ?_⟩, ?_, ?_⟩
  · intro h
    unfold get_email_from_token at h
    rcases hd : jwtDecode t now with e | p
    · exact ⟨e, rfl⟩
    · exfalso
      rw [hd] at h
      rcases hs : p.sub with _ | email <;> simp [hs] at h
  · rintro ⟨e, he⟩
    unfold get_email_from_token
    rw [he]
  · intro p ht hexp hs
    unfold get_email_from_token jwtDecode
    rw [ht]
    simp [hexp, hs]
  · intro p email ht hexp hs
    unfold get_email_from_token jwtDecode
    rw [ht]
    simp [hexp, hs]

/-- C10 witness: a signed, unexpired payload with no `sub` raises
`KeyError`; an unsigned string answers 422. -/
theorem get_email_from_token_spec_witness :
    get_email_from_token (.signed ⟨none, none, 0, 9⟩) 4 = .pyError .keyError ∧
    get_email_from_token (.other "tampered") 4 =
      .httpError 422 "Not valid token" := by
  constructor
  · exact (get_email_from_token_spec (.signed ⟨none, none, 0, 9⟩) 4).2.1
      ⟨none, none, 0, 9⟩ rfl (by decide) rfl
  · exact (get_email_from_token_spec (.other "tampered") 4).1.mpr
      ⟨.malformed, rfl⟩

/-- C8 counterexample: a request to `GET /auth/confirmed_email/{token}`
with an undecodable token fails with 422 "Not valid token", not with
400 "Verification error" as the claim states for every failing
request. -/
theorem confirmed_email_undecodable_not_400 :
    confirmed_email_route (.other "tampered") ⟨[], [], 0⟩ 0 =
      (.httpError 422 "Not valid token", ⟨[], [], 0⟩) ∧
    (ApiResult.httpError (α := String) 422 "Not valid token" ≠
      .httpError 400 "Verification error") := by
  exact ⟨rfl, by decide⟩

/-- C8 amended: a failing `GET /auth/confirmed_email/{token}` request
responds 400 "Verification error" exactly when the token decodes but its
subject email matches no user; a token that fails to decode (tampered or
expired) yields 422 "Not valid token"; a decodable unexpired token
without a subject claim raises an uncaught `KeyError`; every succeeding
request responds 200 with a message. -/
theorem confirmed_email_route_responses (t : TokenStr) (db : AuthDB) (now : Nat) :
    ((∃ e, jwtDecode t now = .error e) →
      confirmed_email_route t db now = (.httpError 422 "Not valid token", db)) ∧
    (∀ p email, t = .signed p → ¬ p.exp < now → p.sub = some email →
      get_user_by_email db email = .ok none →
      confirmed_email_route t db now =
        (.httpError 400 "Verification error", db)) ∧
    (∀ p, t = .signed p → ¬ p.exp < now → p.sub = none →
      (confirmed_email_route t db now).1 = .pyError .keyError) ∧
    (∀ p email u, t = .signed p → ¬ p.exp < now → p.sub = some email →
      get_user_by_email db email = .ok (some u) →
      ∃ m, (confirmed_email_route t db now).1 = .ok m) := by
  refine ⟨?_, ?_, ?_, ?_⟩
  · rintro ⟨e, he⟩
    unfold confirmed_email_route get_email_from_token
    rw [he]
  · intro p email ht hexp hs hnone
    unfold confirmed_email_route get_email_from_token jwtDecode
    rw [ht]
    simp only [hexp, if_false, hs]
    rw [hnone]
  · intro p ht hexp hs
    unfold confirmed_email_route get_email_from_token jwtDecode
    rw [ht]
    simp [hexp, hs]
  · intro p email u ht hexp hs hsome
    unfold confirmed_email_route get_email_from_token jwtDecode
    rw [ht]
    simp only [hexp, if_false, hs]
    rw [hsome]
    cases hc : u.confirmed
    · simp only [hc, Bool.false_eq_true, if_false]
      unfold repo_confirmed_email
      rw [hsome]
      exact ⟨"Email confirmed successfully", rfl⟩
    · simp only [hc, if_true]
      exact ⟨"Your email is already confirmed", rfl⟩

/-- C8 amended witness: a decodable token whose subject email is
unknown answers 400 "Verification error". -/
theorem confirmed_email_route_responses_witness :
    confirmed_email_route (.signed ⟨some "a@b", none, 0, 9⟩) ⟨[], [], 0⟩ 4 =
      (.httpError 400 "Verification error", ⟨[], [], 0⟩) :=
  (confirmed_email_route_responses (.signed ⟨some "a@b", none, 0, 9⟩)
      ⟨[], [], 0⟩ 4).2.1 ⟨some "a@b", none, 0, 9⟩ "a@b" rfl (by decide) rfl
    rfl

/-- C6: login answers 401 "Not valid password or username" when the
username is unknown or the password hash check fails (the latter branch
holds for every user, confirmed or not, so the credential check strictly
precedes the confirmation check); 401 "Email must be confirmed" when the
credentials are right but the user is unconfirmed; otherwise it returns
an access token, a newly persisted refresh token and token type
"bearer". -/
theorem login_user_spec (verify_password : String → String → Bool)
    (username password : String) (db : AuthDB) (now : Nat) :
    (get_user_by_username db username = .ok none →
      login_user verify_password username password db now =
        (.httpError 401 "Not valid password or username", db)) ∧
    (∀ u, get_user_by_username db username = .ok (some u) →
      verify_password password u.hashed_password = false →
      login_user verify_password username password db now =
        (.httpError 401 "Not valid password or username", db)) ∧
    (∀ u, get_user_by_username db username = .ok (some u) →
      verify_password password u.hashed_password = true →
      u.confirmed = false →
      login_user verify_password username password db now =
        (.httpError 401 "Email must be confirmed", db)) ∧
    (∀ u, get_user_by_username db username = .ok (some u) →
      verify_password password u.hashed_password = true →
      u.confirmed = true →
      login_user verify_password username password db now =
        (.ok { access_token := create_access_token (some u.username) none now,
               refresh_token :=
                 (create_refresh_token (some u.username) u.id db none now).1.token,
               token_type := "bearer" },
         (create_refresh_token (some u.username) u.id db none now).2) ∧
      (create_refresh_token (some u.username) u.id db none now).1 ∈
        (create_refresh_token (some u.username) u.id db none now).2.tokens ∧
      (create_refresh_token (some u.username) u.id db none now).1.user_id = u.id ∧
      (create_refresh_token (some u.username) u.id db none now).1.token =
        (refresh_token_dto (some u.username) none now).token) := by
  refine ⟨?_, ?_, ?_, ?_⟩
  · intro h
    unfold login_user
    rw [h]
  · intro u hu hv
    unfold login_user
    rw [hu]
    simp [hv]
  · intro u hu hv hc
    unfold login_user
    rw [hu]
    simp [hv, hc]
  · intro u hu hv hc
    refine ⟨?_, ?_, rfl, rfl⟩
    · unfold login_user
      rw [hu]
      simp [hv, hc]
    · simp [create_refresh_token, repo_create_refresh_token, map_refresh_token]

/-- C6 witness: a stored confirmed user with matching password logs in
and receives a bearer token pair with a persisted refresh token. -/
theorem login_user_spec_witness :
    (login_user (fun p h => p == h) "alice" "pw"
        ⟨[⟨1, "alice", "a@b", "pw", ⟨2024, 1, 2, 3, 4, 5, 0⟩, none, true,
           .user⟩], [], 7⟩ 100).1 =
      .ok { access_token := .signed ⟨some "alice", some "access", 100, 3700⟩,
            refresh_token := .signed ⟨some "alice", some "refresh", 100,
              100 + 604800 * 60⟩,
            token_type := "bearer" } := by
  have h := ((login_user_spec (fun p h => p == h) "alice" "pw"
      ⟨[⟨1, "alice", "a@b", "pw", ⟨2024, 1, 2, 3, 4, 5, 0⟩, none, true,
         .user⟩], [], 7⟩ 100).2.2.2
    ⟨1, "alice", "a@b", "pw", ⟨2024, 1, 2, 3, 4, 5, 0⟩, none, true, .user⟩
    rfl rfl rfl).1
  rw [h]
  rfl

/-- C5: the rotate operation of the refresh-token store: when a stored
row matches `(token = old, user_id = uid)`, exactly its `token`,
`expires_at` and `created_at` are overwritten with the new record's
values (`id` and `user_id` unchanged), every other row is untouched, and
the updated row is returned; when no row matches, it returns none and
the store is unchanged, with no error raised. -/
theorem repo_update_refresh_token_spec (db : AuthDB) (old : TokenStr)
    (new_rec : RefreshTokenRec) (uid : Nat) (hwf : db.wf) :
    (∀ row ∈ db.tokens, row.token = old → row.user_id = uid →
      repo_update_refresh_token db old new_rec uid =
        .ok (some { row with
                    token := new_rec.token,
                    expires_at := new_rec.expires_at,
                    created_at := new_rec.created_at },
          { db with tokens := db.tokens.map (fun t =>
              if t.id = row.id then
                { row with
                  token := new_rec.token,
                  expires_at := new_rec.expires_at,
                  created_at := new_rec.created_at }
              else t) })) ∧
    ((¬ ∃ row ∈ db.tokens, row.token = old ∧ row.user_id = uid) →
      repo_update_refresh_token db old new_rec uid = .ok (none, db)) := by
  constructor
  · intro row hrow htok huid
    unfold repo_update_refresh_token
    rw [tokens_filter_eq_singleton hwf hrow htok huid]
    rfl
  · intro hno
    unfold repo_update_refresh_token
    have hfil : db.tokens.filter (fun t =>
        decide (t.token = old ∧ t.user_id = uid)) = [] := by
      rw [List.filter_eq_nil_iff]
      intro v hv
      simp only [decide_eq_true_eq]
      intro hc
      exact hno ⟨v, hv, hc⟩
    rw [hfil]
    rfl

/-- C5 witness: rotating the single matching stored row rewrites its
token and timestamps in place. -/
theorem repo_update_refresh_token_spec_witness :
    repo_update_refresh_token
        ⟨[], [⟨3, .other "old", 10, 20, 1⟩], 4⟩ (.other "old")
        ⟨0, .other "new", 30, 40, 1⟩ 1 =
      .ok (some ⟨3, .other "new", 30, 40, 1⟩,
        ⟨[], [⟨3, .other "new", 30, 40, 1⟩], 4⟩) := by
  have h := (repo_update_refresh_token_spec
      ⟨[], [⟨3, .other "old", 10, 20, 1⟩], 4⟩ (.other "old")
      ⟨0, .other "new", 30, 40, 1⟩ 1 (by decide)).1
    ⟨3, .other "old", 10, 20, 1⟩ (by decide) rfl rfl
  exact h.trans rfl

/-- C4: refresh-token verification returns no user — and the refresh
endpoint answers 401 "Invalid or expired refresh token" — when decoding
fails, when the payload lacks a subject or its `token_type` differs from
"refresh", or when no stored refresh-token row with exactly the
presented string belongs to the user with the decoded username;
otherwise it returns the owning user. -/
theorem verify_refresh_token_spec (rt : TokenStr) (db : AuthDB) (now : Nat)
    (hwf : db.wf) :
    ((∃ e, jwtDecode rt now = .error e) →
      verify_refresh_token rt db now = .ok none) ∧
    (∀ p, jwtDecode rt now = .ok p →
      (p.sub = none ∨ p.token_type ≠ some "refresh") →
      verify_refresh_token rt db now = .ok none) ∧
    (∀ p un, jwtDecode rt now = .ok p → p.sub = some un →
      p.token_type = some "refresh" →
      (¬ ∃ u ∈ db.users, u.username = un ∧
        ∃ r ∈ db.tokens, r.user_id = u.id ∧ r.token = rt) →
      verify_refresh_token rt db now = .ok none) ∧
    (∀ p u, jwtDecode rt now = .ok p → p.sub = some u.username →
      p.token_type = some "refresh" → u ∈ db.users →
      (∃ r ∈ db.tokens, r.user_id = u.id ∧ r.token = rt) →
      verify_refresh_token rt db now = .ok (some u)) ∧
    (verify_refresh_token rt db now = .ok none →
      new_token rt db now =
        (.httpError 401 "Invalid or expired refresh token", db)) := by
  refine ⟨?_, ?_, ?_, ?_, ?_⟩
  · rintro ⟨e, he⟩
    unfold verify_refresh_token
    rw [he]
  · intro p hp hor
    unfold verify_refresh_token
    rw [hp]
    rcases hor with hs | ht
    · simp [hs]
    · rcases hs2 : p.sub with _ | un
      · simp [hs2]
      · simp [hs2, ht]
  · intro p un hp hs ht hno
    unfold verify_refresh_token
    rw [hp]
    simp only [hs, ht, ne_eq, not_true_eq_false, if_false]
    exact get_user_by_username_and_token_none hno
  · intro p u hp hs ht hu hr
    unfold verify_refresh_token
    rw [hp]
    simp only [hs, ht, ne_eq, not_true_eq_false, if_false]
    exact get_user_by_username_and_token_found hwf hu hr
  · intro hv
    unfold new_token
    rw [hv]

/-- C4 witness: a signed but access-typed token fails verification and
the refresh endpoint answers 401. -/
theorem verify_refresh_token_spec_witness :
    verify_refresh_token (.signed ⟨some "bob", some "access", 0, 9⟩)
        ⟨[], [], 0⟩ 4 = .ok none ∧
    new_token (.signed ⟨some "bob", some "access", 0, 9⟩) ⟨[], [], 0⟩ 4 =
      (.httpError 401 "Invalid or expired refresh token", ⟨[], [], 0⟩) := by
  have hs := verify_refresh_token_spec
    (.signed ⟨some "bob", some "access", 0, 9⟩) ⟨[], [], 0⟩ 4 (by decide)
  have h1 := hs.2.1 ⟨some "bob", some "access", 0, 9⟩ rfl (Or.inr (by decide))
  exact ⟨h1, hs.2.2.2.2 h1⟩

/-- C3: resolving the current user from a cache hit on key
`"user:" + token` performs no decode and no repository lookup and
returns the deserialized cached identity; on a miss it performs exactly
one decode (requiring a subject and `token_type = "access"`) and exactly
one lookup by the decoded username, writes the serialized user under
that key with TTL 3600 seconds and returns the user; any decode failure,
missing subject, wrong token type, or absent user yields 401. -/
theorem get_current_user_spec (t : TokenStr) (db : AuthDB) (cache : Cache)
    (now : Nat) :
    (∀ ud, cacheGet cache (.userKey t) = some ud →
      get_current_user t db cache now =
        (.ok (userOfParsedDict (parse_datetime_fields ud)), cache, ⟨0, 0⟩)) ∧
    (cacheGet cache (.userKey t) = none →
      ((∃ e, jwtDecode t now = .error e) →
        get_current_user t db cache now =
          (.httpError 401 "Could not validate credentials", cache, ⟨1, 0⟩)) ∧
      (∀ p, jwtDecode t now = .ok p →
        (p.sub = none ∨ p.token_type ≠ some "access") →
        get_current_user t db cache now =
          (.httpError 401 "Could not validate credentials", cache, ⟨1, 0⟩)) ∧
      (∀ p un, jwtDecode t now = .ok p → p.sub = some un →
        p.token_type = some "access" →
        (get_user_by_username db un = .ok none →
          get_current_user t db cache now =
            (.httpError 401 "Could not validate credentials", cache, ⟨1, 1⟩)) ∧
        (∀ u, get_user_by_username db un = .ok (some u) →
          get_current_user t db cache now =
            (.ok u.toRaw, cacheSet cache (.userKey t) (to_dict u) 3600,
             ⟨1, 1⟩)))) := by
  constructor
  · intro ud hud
    unfold get_current_user
    rw [hud]
  · intro hmiss
    refine ⟨?_, ?_, ?_⟩
    · rintro ⟨e, he⟩
      unfold get_current_user
      rw [hmiss, he]
    · intro p hp hor
      unfold get_current_user
      rw [hmiss, hp]
      rcases hor with hs | htt2
      · simp [hs]
      · rcases hs2 : p.sub with _ | un
        · simp [hs2]
        · simp [hs2, htt2]
    · intro p un hp hs htt2
      constructor
      · intro hnone
        unfold get_current_user
        rw [hmiss, hp]
        simp only [hs, htt2, ne_eq, not_true_eq_false, if_false]
        rw [hnone]
      · intro u hu
        unfold get_current_user
        rw [hmiss, hp]
        simp only [hs, htt2, ne_eq, not_true_eq_false, if_false]
        rw [hu]

/-- C3 witness: a cache hit returns the deserialized entry with no
decode and no lookup. -/
theorem get_current_user_spec_witness :
    get_current_user (.other "tok") ⟨[], [], 0⟩
        [⟨.userKey (.other "tok"),
          ⟨1, "alice", "a@b", "pw", "2024-01-02T03:04:05", none, true,
           .user⟩, 500⟩] 9 =
      (.ok ⟨1, "alice", "a@b", "pw", .dt ⟨2024, 1, 2, 3, 4, 5, 0⟩, none, true,
            .user⟩,
       [⟨.userKey (.other "tok"),
         ⟨1, "alice", "a@b", "pw", "2024-01-02T03:04:05", none, true,
          .user⟩, 500⟩], ⟨0, 0⟩) := by
  have h := (get_current_user_spec (.other "tok") ⟨[], [], 0⟩
      [⟨.userKey (.other "tok"),
        ⟨1, "alice", "a@b", "pw", "2024-01-02T03:04:05", none, true,
         .user⟩, 500⟩] 9).1
    ⟨1, "alice", "a@b", "pw", "2024-01-02T03:04:05", none, true, .user⟩ rfl
  rw [h]
  rfl

/-- Projections unaffected by the confirmed flag are preserved by the
confirm-user update map. -/
theorem map_proj_after_confirm {β : Type} (l : List User) (uid : Nat)
    (g : User → β) (hg : ∀ v, g { v with confirmed := true } = g v) :
    (l.map (fun v => if v.id = uid then { v with confirmed := true } else v)).map g
      = l.map g := by
  rw [List.map_map]
  apply List.map_congr_left
  intro v _
  simp only [Function.comp]
  split
  · exact hg v
  · rfl

/-- Confirming a user preserves the schema invariants. -/
theorem wf_after_confirm (db : AuthDB) (uid : Nat) (hwf : db.wf) :
    AuthDB.wf { db with users := db.users.map (fun v =>
      if v.id = uid then { v with confirmed := true } else v) } := by
  obtain ⟨h1, h2, h3, h4, h5⟩ := hwf
  exact ⟨by rw [map_proj_after_confirm db.users uid User.id (fun v => rfl)]; exact h1,
         by rw [map_proj_after_confirm db.users uid User.username (fun v => rfl)]; exact h2,
         by rw [map_proj_after_confirm db.users uid User.email (fun v => rfl)]; exact h3,
         h4, h5⟩

/-- C7: confirming the email of an already-confirmed user returns a
success message and changes no stored state; confirming an unconfirmed
user with a valid token for an existing email sets `confirmed` and
returns a success message; hence confirming twice is equivalent to
confirming once (the second call is a stateless success). -/
theorem confirmed_email_idempotent (t : TokenStr) (p : Payload) (email : String)
    (db : AuthDB) (now now2 : Nat) (hwf : db.wf)
    (ht : t = .signed p) (hsub : p.sub = some email)
    (hexp1 : ¬ p.exp < now) (hexp2 : ¬ p.exp < now2) :
    (∀ u ∈ db.users, u.email = email → u.confirmed = true →
      confirmed_email_route t db now =
        (.ok "Your email is already confirmed", db)) ∧
    (∀ u ∈ db.users, u.email = email → u.confirmed = false →
      confirmed_email_route t db now =
        (.ok "Email confirmed successfully",
         { db with users := db.users.map (fun v =>
             if v.id = u.id then { v with confirmed := true } else v) })) ∧
    (∀ u ∈ db.users, u.email = email →
      ∃ m db1, confirmed_email_route t db now = (.ok m, db1) ∧
        confirmed_email_route t db1 now2 =
          (.ok "Your email is already confirmed", db1)) := by
  have hget : ∀ nw : Nat, ¬ p.exp < nw → get_email_from_token t nw = .ok email := by
    intro nw hnw
    unfold get_email_from_token jwtDecode
    rw [ht]
    simp [hnw, hsub]
  have hbranchT : ∀ (dbx : AuthDB) (nw : Nat) (u' : User), ¬ p.exp < nw →
      get_user_by_email dbx email = .ok (some u') → u'.confirmed = true →
      confirmed_email_route t dbx nw =
        (.ok "Your email is already confirmed", dbx) := by
    intro dbx nw u' hnw hf hc
    unfold confirmed_email_route
    simp [hget nw hnw, hf, hc]
  have hbranchF : ∀ (dbx : AuthDB) (nw : Nat) (u' : User), ¬ p.exp < nw →
      get_user_by_email dbx email = .ok (some u') → u'.confirmed = false →
      confirmed_email_route t dbx nw =
        (.ok "Email confirmed successfully",
         { dbx with users := dbx.users.map (fun v =>
             if v.id = u'.id then { v with confirmed := true } else v) }) := by
    intro dbx nw u' hnw hf hc
    unfold confirmed_email_route repo_confirmed_email
    simp [hget nw hnw, hf, hc]
  refine ⟨?_, ?_, ?_⟩
  · intro u hu he hc
    exact hbranchT db now u hexp1 (he ▸ get_user_by_email_found hwf hu) hc
  · intro u hu he hc
    exact hbranchF db now u hexp1 (he ▸ get_user_by_email_found hwf hu) hc
  · intro u hu he
    cases hc : u.confirmed
    · refine ⟨"Email confirmed successfully",
        { db with users := db.users.map (fun v =>
            if v.id = u.id then { v with confirmed := true } else v) },
        hbranchF db now u hexp1 (he ▸ get_user_by_email_found hwf hu) hc, ?_⟩
      have hwf1 := wf_after_confirm db u.id hwf
      have hu1 : ({ u with confirmed := true } : User) ∈
          db.users.map (fun v =>
            if v.id = u.id then { v with confirmed := true } else v) := by
        have hmem := List.mem_map_of_mem
          (fun v => if v.id = u.id then { v with confirmed := true } else v) hu
        simpa using hmem
      have hf1 := @get_user_by_email_found
        { db with users := db.users.map (fun v =>
            if v.id = u.id then { v with confirmed := true } else v) }
        { u with confirmed := true } hwf1 hu1
      exact hbranchT _ now2 { u with confirmed := true } hexp2
        (he ▸ hf1) rfl
    · exact ⟨"Your email is already confirmed", db,
        hbranchT db now u hexp1 (he ▸ get_user_by_email_found hwf hu) hc,
        hbranchT db now2 u hexp2 (he ▸ get_user_by_email_found hwf hu) hc⟩

/-- C7 witness: confirming an already-confirmed user is a stateless
success. -/
theorem confirmed_email_idempotent_witness :
    confirmed_email_route (.signed ⟨some "a@b", none, 0, 9⟩)
        ⟨[⟨1, "alice", "a@b", "pw", ⟨2024, 1, 2, 3, 4, 5, 0⟩, none, true,
           .user⟩], [], 7⟩ 4 =
      (.ok "Your email is already confirmed",
       ⟨[⟨1, "alice", "a@b", "pw", ⟨2024, 1, 2, 3, 4, 5, 0⟩, none, true,
          .user⟩], [], 7⟩) :=
  (confirmed_email_idempotent (.signed ⟨some "a@b", none, 0, 9⟩)
      ⟨some "a@b", none, 0, 9⟩ "a@b"
      ⟨[⟨1, "alice", "a@b", "pw", ⟨2024, 1, 2, 3, 4, 5, 0⟩, none, true,
         .user⟩], [], 7⟩ 4 5 (by decide) rfl rfl (by decide) (by decide)).1
    ⟨1, "alice", "a@b", "pw", ⟨2024, 1, 2, 3, 4, 5, 0⟩, none, true, .user⟩
    (by decide) rfl rfl

/-- C1: a successful `POST /auth/refresh-token` echoes the presented
(old) refresh token string in the response's `refresh_token` field while
the stored row is rotated in place to the freshly issued token; as the
fresh token is issued at a different second than the presented one
(`hiat`), the returned and persisted refresh tokens differ: no stored
row holds the presented string any more. -/
theorem refresh_rotation_echoes_old_token (db : AuthDB) (now : Nat)
    (p : Payload) (u : User) (row : RefreshTokenRec) (hwf : db.wf)
    (hu : u ∈ db.users) (hrow : row ∈ db.tokens)
    (hrowuid : row.user_id = u.id) (hrowtok : row.token = .signed p)
    (hsub : p.sub = some u.username) (htt : p.token_type = some "refresh")
    (hexp : ¬ p.exp < now) (hiat : p.iat ≠ now) :
    ∃ db2,
      new_token (.signed p) db now =
        (.ok { access_token := create_access_token (some u.username) none now,
               refresh_token := .signed p, token_type := "bearer" }, db2) ∧
      (∃ r2 ∈ db2.tokens, r2.id = row.id ∧ r2.user_id = u.id ∧
        r2.token = .signed ⟨some u.username, some "refresh", now,
          now + timedelta_minutes REFRESH_TOKEN_EXPIRATION_SECONDS⟩) ∧
      (TokenStr.signed ⟨some u.username, some "refresh", now,
          now + timedelta_minutes REFRESH_TOKEN_EXPIRATION_SECONDS⟩ ≠
        .signed p) ∧
      (∀ r2 ∈ db2.tokens, r2.token ≠ .signed p) := by
  have hverify : verify_refresh_token (.signed p) db now = .ok (some u) := by
    unfold verify_refresh_token jwtDecode
    simp only [hexp, if_false, hsub, htt, ne_eq, not_true_eq_false]
    exact get_user_by_username_and_token_found hwf hu ⟨row, hrow, hrowuid, hrowtok⟩
  have hfresh : TokenStr.signed ⟨some u.username, some "refresh", now,
      now + timedelta_minutes REFRESH_TOKEN_EXPIRATION_SECONDS⟩ ≠
      .signed p := by
    intro h
    injection h with h2
    exact hiat (congrArg Payload.iat h2).symm
  refine ⟨{ db with tokens := db.tokens.map (fun t =>
      if t.id = row.id then
        { row with
          token := .signed ⟨some u.username, some "refresh", now,
            now + timedelta_minutes REFRESH_TOKEN_EXPIRATION_SECONDS⟩,
          expires_at := now + timedelta_minutes REFRESH_TOKEN_EXPIRATION_SECONDS,
          created_at := now }
      else t) }, ?_, ?_, hfresh, ?_⟩
  · have hupd : update_refresh_token (some u.username) (.signed p) u.id db
        none now =
        .ok (some { row with
            token := .signed ⟨some u.username, some "refresh", now,
              now + timedelta_minutes REFRESH_TOKEN_EXPIRATION_SECONDS⟩,
            expires_at :=
              now + timedelta_minutes REFRESH_TOKEN_EXPIRATION_SECONDS,
            created_at := now },
          { db with tokens := db.tokens.map (fun t =>
              if t.id = row.id then
                { row with
                  token := .signed ⟨some u.username, some "refresh", now,
                    now + timedelta_minutes REFRESH_TOKEN_EXPIRATION_SECONDS⟩,
                  expires_at :=
                    now + timedelta_minutes REFRESH_TOKEN_EXPIRATION_SECONDS,
                  created_at := now }
              else t) }) := by
      unfold update_refresh_token repo_update_refresh_token
      rw [tokens_filter_eq_singleton hwf hrow hrowtok hrowuid]
      rfl
    unfold new_token
    simp only [hverify, hupd]
  · refine ⟨{ row with
      token := .signed ⟨some u.username, some "refresh", now,
        now + timedelta_minutes REFRESH_TOKEN_EXPIRATION_SECONDS⟩,
      expires_at := now + timedelta_minutes REFRESH_TOKEN_EXPIRATION_SECONDS,
      created_at := now }, ?_, rfl, hrowuid, rfl⟩
    have hmem := List.mem_map_of_mem (fun t =>
      if t.id = row.id then
        { row with
          token := .signed ⟨some u.username, some "refresh", now,
            now + timedelta_minutes REFRESH_TOKEN_EXPIRATION_SECONDS⟩,
          expires_at := now + timedelta_minutes REFRESH_TOKEN_EXPIRATION_SECONDS,
          created_at := now }
      else t) hrow
    simpa using hmem
  · intro r2 hr2
    simp only [List.mem_map] at hr2
    obtain ⟨r, hrmem, hreq⟩ := hr2
    by_cases hid : r.id = row.id
    · rw [if_pos hid] at hreq
      rw [← hreq]
      exact hfresh
    · rw [if_neg hid] at hreq
      rw [← hreq, hrowtok.symm]
      intro htok
      exact hid (congrArg RefreshTokenRec.id
        (List.inj_on_of_nodup_map hwf.2.2.2.2 hrmem hrow htok))

/-- C1 witness: a concrete successful refresh echoes the old string and
rotates the stored row to the fresh token. -/
theorem refresh_rotation_echoes_old_token_witness :
    ∃ db2,
      new_token (.signed ⟨some "alice", some "refresh", 50, 999999⟩)
          ⟨[⟨1, "alice", "a@b", "pw", ⟨2024, 1, 2, 3, 4, 5, 0⟩, none, true,
             .user⟩],
           [⟨3, .signed ⟨some "alice", some "refresh", 50, 999999⟩, 50,
             999999, 1⟩], 5⟩ 60 =
        (.ok { access_token := create_access_token (some "alice") none 60,
               refresh_token :=
                 .signed ⟨some "alice", some "refresh", 50, 999999⟩,
               token_type := "bearer" }, db2) ∧
      (∃ r2 ∈ db2.tokens, r2.id = 3 ∧ r2.user_id = 1 ∧
        r2.token = .signed ⟨some "alice", some "refresh", 60,
          60 + timedelta_minutes REFRESH_TOKEN_EXPIRATION_SECONDS⟩) ∧
      (TokenStr.signed ⟨some "alice", some "refresh", 60,
          60 + timedelta_minutes REFRESH_TOKEN_EXPIRATION_SECONDS⟩ ≠
        .signed ⟨some "alice", some "refresh", 50, 999999⟩) ∧
      (∀ r2 ∈ db2.tokens,
        r2.token ≠ .signed ⟨some "alice", some "refresh", 50, 999999⟩) :=
  refresh_rotation_echoes_old_token
    ⟨[⟨1, "alice", "a@b", "pw", ⟨2024, 1, 2, 3, 4, 5, 0⟩, none, true, .user⟩],
     [⟨3, .signed ⟨some "alice", some "refresh", 50, 999999⟩, 50, 999999, 1⟩],
     5⟩ 60 ⟨some "alice", some "refresh", 50, 999999⟩
    ⟨1, "alice", "a@b", "pw", ⟨2024, 1, 2, 3, 4, 5, 0⟩, none, true, .user⟩
    ⟨3, .signed ⟨some "alice", some "refresh", 50, 999999⟩, 50, 999999, 1⟩
    (by decide) (by decide) (by decide) rfl rfl rfl rfl (by decide) (by decide)

/-- C9: `datetime.fromisoformat` inverts `datetime.isoformat`, so
serializing a user with `to_dict` (datetimes as ISO-8601 strings),
passing it through the JSON cache and re-parsing `created_at` with
`parse_datetime_fields` reconstructs every column; consequently the
cache write performed by a miss in `get_current_user` followed by a
cache-hit read yields a user with the same id, username, email,
hashed_password, confirmed, role, avatar and created_at as the user
that was cached. -/
theorem user_cache_roundtrip (u : User) (db db2 : AuthDB) (cache : Cache)
    (t : TokenStr) (p : Payload) (un : String) (now now2 : Nat)
    (hvalid : u.created_at.Valid)
    (hmiss : cacheGet cache (.userKey t) = none)
    (hdec : jwtDecode t now = .ok p) (hsub : p.sub = some un)
    (htt : p.token_type = some "access")
    (hfound : get_user_by_username db un = .ok (some u)) :
    fromisoformat (isoformat u.created_at) = some u.created_at ∧
    userOfParsedDict (parse_datetime_fields (to_dict u)) = u.toRaw ∧
    get_current_user t db cache now =
      (.ok u.toRaw, cacheSet cache (.userKey t) (to_dict u) 3600, ⟨1, 1⟩) ∧
    get_current_user t db2 (cacheSet cache (.userKey t) (to_dict u) 3600) now2 =
      (.ok u.toRaw, cacheSet cache (.userKey t) (to_dict u) 3600, ⟨0, 0⟩) := by
  have h1 : fromisoformat (isoformat u.created_at) = some u.created_at :=
    fromIsoChars_isoChars u.created_at hvalid
  have h2 : userOfParsedDict (parse_datetime_fields (to_dict u)) = u.toRaw := by
    unfold userOfParsedDict parse_datetime_fields to_dict User.toRaw
    rw [h1]
  have h3 : get_current_user t db cache now =
      (.ok u.toRaw, cacheSet cache (.userKey t) (to_dict u) 3600, ⟨1, 1⟩) := by
    unfold get_current_user
    simp only [hmiss, hdec, hsub, htt, ne_eq, not_true_eq_false, if_false,
      hfound]
  have hhit : cacheGet (cacheSet cache (.userKey t) (to_dict u) 3600)
      (.userKey t) = some (to_dict u) := by
    simp [cacheGet, cacheSet, List.find?]
  have h4 : get_current_user t db2
      (cacheSet cache (.userKey t) (to_dict u) 3600) now2 =
      (.ok u.toRaw, cacheSet cache (.userKey t) (to_dict u) 3600, ⟨0, 0⟩) := by
    unfold get_current_user
    simp only [hhit]
    rw [h2]
  exact ⟨h1, h2, h3, h4⟩

/-- C9 witness: a concrete user (with nonzero microseconds) survives the
write-then-read cache round trip unchanged. -/
theorem user_cache_roundtrip_witness :
    fromisoformat (isoformat ⟨2024, 1, 2, 3, 4, 5, 6⟩) =
      some ⟨2024, 1, 2, 3, 4, 5, 6⟩ ∧
    userOfParsedDict (parse_datetime_fields (to_dict
      ⟨1, "alice", "a@b", "pw", ⟨2024, 1, 2, 3, 4, 5, 6⟩, none, true,
       .user⟩)) =
      User.toRaw ⟨1, "alice", "a@b", "pw", ⟨2024, 1, 2, 3, 4, 5, 6⟩, none,
        true, .user⟩ ∧
    get_current_user (.signed ⟨some "alice", some "access", 0, 99⟩)
        ⟨[⟨1, "alice", "a@b", "pw", ⟨2024, 1, 2, 3, 4, 5, 6⟩, none, true,
           .user⟩], [], 2⟩ [] 9 =
      (.ok (User.toRaw ⟨1, "alice", "a@b", "pw", ⟨2024, 1, 2, 3, 4, 5, 6⟩,
         none, true, .user⟩),
       cacheSet [] (.userKey (.signed ⟨some "alice", some "access", 0, 99⟩))
         (to_dict ⟨1, "alice", "a@b", "pw", ⟨2024, 1, 2, 3, 4, 5, 6⟩, none,
           true, .user⟩) 3600, ⟨1, 1⟩) ∧
    get_current_user (.signed ⟨some "alice", some "access", 0, 99⟩)
        ⟨[], [], 0⟩
        (cacheSet [] (.userKey (.signed ⟨some "alice", some "access", 0, 99⟩))
          (to_dict ⟨1, "alice", "a@b", "pw", ⟨2024, 1, 2, 3, 4, 5, 6⟩, none,
            true, .user⟩) 3600) 11 =
      (.ok (User.toRaw ⟨1, "alice", "a@b", "pw", ⟨2024, 1, 2, 3, 4, 5, 6⟩,
         none, true, .user⟩),
       cacheSet [] (.userKey (.signed ⟨some "alice", some "access", 0, 99⟩))
         (to_dict ⟨1, "alice", "a@b", "pw", ⟨2024, 1, 2, 3, 4, 5, 6⟩, none,
           true, .user⟩) 3600, ⟨0, 0⟩) :=
  user_cache_roundtrip
    ⟨1, "alice", "a@b", "pw", ⟨2024, 1, 2, 3, 4, 5, 6⟩, none, true, .user⟩
    ⟨[⟨1, "alice", "a@b", "pw", ⟨2024, 1, 2, 3, 4, 5, 6⟩, none, true,
       .user⟩], [], 2⟩ ⟨[], [], 0⟩ []
    (.signed ⟨some "alice", some "access", 0, 99⟩)
    ⟨some "alice", some "access", 0, 99⟩ "alice" 9 11
    (by decide) rfl rfl rfl rfl rfl

/-- C1 counterexample: a successful refresh performed at the very
second the presented refresh token was issued re-issues the identical
payload (same subject, same `iat`, same default expiry), so the rotation
writes back exactly the returned string: the call succeeds and the store
is unchanged, refuting that the returned and persisted refresh tokens
differ after *every* successful refresh. -/
theorem refresh_rotation_same_second_counterexample :
    new_token (.signed ⟨some "alice", some "refresh", 60, 36288060⟩)
        ⟨[⟨1, "alice", "a@b", "pw", ⟨2024, 1, 2, 3, 4, 5, 0⟩, none, true,
           .user⟩],
         [⟨3, .signed ⟨some "alice", some "refresh", 60, 36288060⟩, 60,
           36288060, 1⟩], 5⟩ 60 =
      (.ok { access_token := .signed ⟨some "alice", some "access", 60, 3660⟩,
             refresh_token :=
               .signed ⟨some "alice", some "refresh", 60, 36288060⟩,
             token_type := "bearer" },
       ⟨[⟨1, "alice", "a@b", "pw", ⟨2024, 1, 2, 3, 4, 5, 0⟩, none, true,
          .user⟩],
        [⟨3, .signed ⟨some "alice", some "refresh", 60, 36288060⟩, 60,
          36288060, 1⟩], 5⟩) := by
  rfl

end ContactsApi
